import Mathlib

/-!
Shallow embedding of the xpra QUIC/HTTP-3 client adapter and authentication
result contract:

* `src/xpra/net/quic/connection.py` — `XpraQuicConnection` (base class)
* `src/xpra/net/quic/client.py` — `ClientWebSocketConnection`, `WebSocketClient`
* `src/tests/unittests/unit/server/server_auth_test.py`,
  `src/tests/unittests/unit/server/server_sockets_test.py` — auth/TLS result
  codes (the backends themselves live outside this excerpt and are modelled
  from the spec where noted).

Byte strings are `List Nat`; the observable side effects of a method (data
sent on the QUIC stream, headers sent, transmit calls, log warnings, resource
release) are returned as an explicit trace of `Effect`s.  Python exceptions
(the `AttributeError` raised when `flush_writes` runs with `write_buffer`
already `None`) are modelled with `Option`: `none` means the call raised.
-/

/-- Byte strings (python `bytes`). -/
abbrev Bytes := List Nat

/-- Observable side effects of the connection methods:
data/headers handed to the aioquic `HttpConnection`, `transmit()` calls,
`log.warn` messages and the release of the underlying transport resource. -/
inductive Effect where
  | sendData (stream_id : Nat) (data : Bytes) (end_stream : Bool)
  | sendHeaders (stream_id : Nat) (headers : List (String × String)) (end_stream : Bool)
  | transmit
  | logWarn (msg : String)
  | release
  deriving Repr, DecidableEq

/-- HTTP/3 events delivered by aioquic (`HeadersReceived`, `DataReceived`,
anything else is collapsed into `other`, matching the `isinstance` dispatch
in the source). Header names/values are strings (the source uses `bytes`). -/
inductive H3Event where
  | headersReceived (stream_id : Nat) (headers : List (String × String))
  | dataReceived (stream_id : Nat) (data : Bytes)
  | other
  deriving Repr, DecidableEq

/-- State of one `XpraQuicConnection` / `ClientWebSocketConnection`
(`src/xpra/net/quic/connection.py` lines 24-34, `client.py` lines 54-59).
`write_buffer` is the subclass field: `some q` is a live `Queue` holding `q`
(FIFO, head dequeued first), `none` is the python `None` sentinel after
`flush_writes` (a plain server-side `XpraQuicConnection` also has no
buffer: `none`).  `released` models the base `Connection` transport
resource, used by `Connection.close`. -/
structure QState where
  stream_id : Nat
  read_queue : List Bytes
  accepted : Bool
  closed : Bool
  released : Bool
  write_buffer : Option (List Bytes)
  deriving Repr, DecidableEq

/-- Constructor `ClientWebSocketConnection.__init__`: fresh stream state as created by
`WebSocketClient.open` (read queue empty, not accepted, not closed, live
empty write buffer). -/
def QState.init (stream_id : Nat) : QState :=
  { stream_id := stream_id
    read_queue := []
    accepted := false
    closed := false
    released := false
    write_buffer := some [] }

/-- Method `XpraQuicConnection.write` (`connection.py` lines 89-94): sends the bytes
on the stream with `end_stream=self.closed`, calls `transmit()` and returns
`len(buf)`.  Note: it does NOT consult `self.closed` to refuse the write. -/
def XpraQuicConnection.write (s : QState) (buf : Bytes) : Nat × QState × List Effect :=
  (buf.length, s, [Effect.sendData s.stream_id buf s.closed, Effect.transmit])

set_option linter.unusedVariables false in
/-- Method `XpraQuicConnection.read` (`connection.py` lines 96-98):
`return self.read_queue.get()` — the argument `n` is ignored entirely.
`Queue.get()` blocks when the queue is empty: modelled as `none`. -/
def XpraQuicConnection.read (s : QState) (n : Int) : Option (Bytes × QState) :=
  match s.read_queue with
  | [] => none
  | chunk :: rest => some (chunk, { s with read_queue := rest })

/-- Method `XpraQuicConnection.http_event_received` (`connection.py` lines 61-68):
if closed, drop the event; `DataReceived` is appended to the read queue;
any other event only logs a warning. -/
def XpraQuicConnection.http_event_received (s : QState) (e : H3Event) :
    QState × List Effect :=
  if s.closed then (s, [])
  else
    match e with
    | H3Event.dataReceived _ data =>
        ({ s with read_queue := s.read_queue ++ [data] }, [])
    | _ => (s, [Effect.logWarn "Warning: unhandled websocket http event"])

/-- Method `XpraQuicConnection.send_headers` (`connection.py` lines 85-87):
forwards to the http connection with `end_stream=self.closed`. -/
def XpraQuicConnection.send_headers (s : QState) (headers : List (String × String)) :
    List Effect :=
  [Effect.sendHeaders s.stream_id headers s.closed]

/-- Modelled from the spec: `close_packet` from `xpra.net.websockets.header`
is not under `src/`; the spec only says closing an accepted stream "sends a
close frame".  Modelled as an opaque but computable encoding of the close
code and reason (websocket close payload: 16-bit big-endian code followed by
the reason text). -/
def close_packet (code : Nat) (reason : String) : Bytes :=
  [code / 256 % 256, code % 256] ++ (reason.toList.map Char.toNat)

/-- Modelled from the spec: `xpra.net.bytestreams.Connection.close` is not
under `src/`; spec §4.1 states `close()` is "idempotent; releases the
underlying transport resource and marks `closed`". -/
def Connection.close (s : QState) : QState × List Effect :=
  if s.released then ({ s with closed := true }, [])
  else ({ s with closed := true, released := true }, [Effect.release])

/-- Method `XpraQuicConnection.send_close` (`connection.py` lines 76-83),
parameterized by the dynamically dispatched `self.write` (base class or
`ClientWebSocketConnection` override): sets `closed = True`, then either
writes a websocket close frame (if `accepted`) or sends a `:status`
response and transmits. -/
def send_close_with (writeFn : QState → Bytes → Nat × QState × List Effect)
    (s : QState) (code : Nat) (reason : String) : QState × List Effect :=
  let s1 := { s with closed := true }
  if s1.accepted then
    let r := writeFn s1 (close_packet code reason)
    (r.2.1, r.2.2)
  else
    (s1, XpraQuicConnection.send_headers s1 [(":status", toString code)] ++ [Effect.transmit])

/-- Method `XpraQuicConnection.close` (`connection.py` lines 70-74), parameterized
by the dispatched `self.write`: `if not self.closed: self.send_close()`
then `Connection.close(self)`. -/
def close_with (writeFn : QState → Bytes → Nat × QState × List Effect)
    (s : QState) : QState × List Effect :=
  if s.closed then Connection.close s
  else
    let r1 := send_close_with writeFn s 1000 ""
    let r2 := Connection.close r1.1
    (r2.1, r1.2 ++ r2.2)

/-- Method `XpraQuicConnection.close` with the base-class `write`. -/
def XpraQuicConnection.close (s : QState) : QState × List Effect :=
  close_with XpraQuicConnection.write s

/-- Method `ClientWebSocketConnection.write` (`client.py` lines 69-75): while
`write_buffer` is not `None`, enqueue the bytes and report `len(buf)`
without touching the stream; otherwise defer to the base-class write. -/
def ClientWebSocketConnection.write (s : QState) (buf : Bytes) :
    Nat × QState × List Effect :=
  match s.write_buffer with
  | some wb => (buf.length, { s with write_buffer := some (wb ++ [buf]) }, [])
  | none => XpraQuicConnection.write s buf

/-- Method `ClientWebSocketConnection.flush_writes` (`client.py` lines 61-67):
drain the queue in FIFO order, `send_data` each chunk with
`end_stream=False`, `transmit()`, then set `write_buffer = None`.
If `write_buffer` is already `None` the source raises `AttributeError`
(`None.qsize()`): modelled as `none`. -/
def ClientWebSocketConnection.flush_writes (s : QState) :
    Option (QState × List Effect) :=
  match s.write_buffer with
  | none => none
  | some wb =>
      some ({ s with write_buffer := none },
            wb.map (fun buf => Effect.sendData s.stream_id buf false) ++ [Effect.transmit])

/-- Method `XpraQuicConnection.close` with the subclass `write` dispatch. -/
def ClientWebSocketConnection.close (s : QState) : QState × List Effect :=
  close_with ClientWebSocketConnection.write s

/-- The loop body of `ClientWebSocketConnection.http_event_received` over a
`HeadersReceived` event header list (`client.py` lines 79-88): each
`sec-websocket-protocol` header has its value split on `","`; if `"xpra"` is
not among the subprotocols, warn, `close()` and return; otherwise set
`accepted = True` and `flush_writes()` (crashing — `none` — if the buffer
was already retired), then continue with the remaining headers. -/
def ClientWebSocketConnection.processHeaders (s : QState) :
    List (String × String) → Option (QState × List Effect)
  | [] => some (s, [])
  | (header, value) :: rest =>
      if header = "sec-websocket-protocol" then
        let subprotocols := value.splitOn ","
        if "xpra" ∈ subprotocols then
          let s1 := { s with accepted := true }
          match ClientWebSocketConnection.flush_writes s1 with
          | none => none
          | some (s2, effs) =>
              (ClientWebSocketConnection.processHeaders s2 rest).map
                (fun r => (r.1, effs ++ r.2))
        else
          let r := ClientWebSocketConnection.close s
          some (r.1,
            Effect.logWarn ("Warning: unsupported websocket subprotocols "
              ++ String.intercalate "," subprotocols) :: r.2)
      else
        ClientWebSocketConnection.processHeaders s rest

/-- Method `ClientWebSocketConnection.http_event_received` (`client.py` lines
77-90): `HeadersReceived` is scanned for the subprotocol header; every other
event falls through to the base-class handler. -/
def ClientWebSocketConnection.http_event_received (s : QState) (e : H3Event) :
    Option (QState × List Effect) :=
  match e with
  | H3Event.headersReceived _ headers => ClientWebSocketConnection.processHeaders s headers
  | _ => some (XpraQuicConnection.http_event_received s e)

/-- Modelled from the spec: `USER_AGENT` from `xpra.net.quic.common` is not
under `src/`; the spec (§6) only requires "a user-agent identifier". -/
def USER_AGENT : String := "xpra"

/-- Definition `WS_HEADERS` (`client.py` lines 44-51).  `binary_headers` encodes the
integer `13` as its decimal text. -/
def WS_HEADERS : List (String × String) :=
  [(":method", "CONNECT"),
   (":scheme", "https"),
   (":protocol", "websocket"),
   ("sec-websocket-version", "13"),
   ("sec-websocket-protocol", "xpra"),
   ("user-agent", USER_AGENT)]

/-- State of the `WebSocketClient` multiplexer: the `_websockets` dict keyed
by stream id, as an association list (first match wins, like a dict). -/
structure WebSocketClient where
  websockets : List (Nat × QState)
  deriving Repr, DecidableEq

/-- Dict lookup `self._websockets[stream_id]` / `stream_id in self._websockets`. -/
def lookupSid (sid : Nat) : List (Nat × QState) → Option QState
  | [] => none
  | p :: rest => if p.1 = sid then some p.2 else lookupSid sid rest

/-- Dict lookup on the `_websockets` map of a `WebSocketClient`. -/
def WebSocketClient.lookup (c : WebSocketClient) (sid : Nat) : Option QState :=
  lookupSid sid c.websockets

/-- Dict update `self._websockets[stream_id] = ws` on an existing key. -/
def updateEntry (sid : Nat) (ws : QState) :
    List (Nat × QState) → List (Nat × QState)
  | [] => []
  | p :: rest =>
      if p.1 = sid then (sid, ws) :: rest else p :: updateEntry sid ws rest

/-- Method `WebSocketClient.open` (`client.py` lines 103-117): create a fresh
`ClientWebSocketConnection` for the stream id, register it in `_websockets`,
and send the upgrade request headers (`:authority`, `:path`, then
`WS_HEADERS`) followed by `transmit()`. -/
def WebSocketClient.wsOpen (c : WebSocketClient) (stream_id : Nat)
    (host : String) (path : String) : WebSocketClient × List Effect :=
  ({ websockets := c.websockets ++ [(stream_id, QState.init stream_id)] },
   [Effect.sendHeaders stream_id
      ([(":authority", host), (":path", path)] ++ WS_HEADERS) false,
    Effect.transmit])

/-- Method `WebSocketClient.http_event_received` (`client.py` lines 123-133):
`HeadersReceived`/`DataReceived` for a registered stream id is dispatched to
that stream connection state; an unknown stream id or any other event type only
logs a warning. -/
def WebSocketClient.http_event_received (c : WebSocketClient) (e : H3Event) :
    Option (WebSocketClient × List Effect) :=
  match e with
  | H3Event.headersReceived sid _ | H3Event.dataReceived sid _ =>
      match c.lookup sid with
      | some ws =>
          (ClientWebSocketConnection.http_event_received ws e).map
            (fun r => ({ websockets := updateEntry sid r.1 c.websockets }, r.2))
      | none =>
          some (c, [Effect.logWarn ("Warning: unexpected websocket stream id: "
                      ++ toString sid)])
  | H3Event.other =>
      some (c, [Effect.logWarn "Warning: unexpected http event type"])

/-- Closing a registered stream session: the close() method of the session runs
(`connection.py` lines 70-83).  Neither `XpraQuicConnection.close` nor any
code in `WebSocketClient` deletes the `_websockets` entry — no removal
exists anywhere in `client.py` — so the map keeps the (now closed) entry. -/
def WebSocketClient.closeStream (c : WebSocketClient) (sid : Nat) :
    WebSocketClient × List Effect :=
  match c.lookup sid with
  | some ws =>
      let r := ClientWebSocketConnection.close ws
      ({ websockets := updateEntry sid r.1 c.websockets }, r.2)
  | none => (c, [])

/-- Type `VerificationResult` (spec §3): closed set of authentication outcomes. -/
inductive VerificationResult where
  | Ok
  | PasswordRequired
  | AuthenticationFailed
  | NoAuthenticationConfigured
  deriving Repr, DecidableEq

/-- External result codes (spec §6; `xpra.exit_codes` is not under `src/`,
the names follow the test imports in `server_auth_test.py` lines 11-14). -/
inductive ExitCode where
  | OK
  | CONNECTION_FAILED
  | AUTHENTICATION_FAILED
  | PASSWORD_REQUIRED
  | NO_AUTHENTICATION
  | SSL_CERTIFICATE_VERIFY_FAILURE
  deriving Repr, DecidableEq

/-- Modelled from the spec: the `VerificationResult` → result-code mapping
of spec §4.3 step 6 and §6 (the mapping code is not under `src/`). -/
def resultCode : VerificationResult → ExitCode
  | VerificationResult.Ok => ExitCode.OK
  | VerificationResult.PasswordRequired => ExitCode.PASSWORD_REQUIRED
  | VerificationResult.AuthenticationFailed => ExitCode.AUTHENTICATION_FAILED
  | VerificationResult.NoAuthenticationConfigured => ExitCode.NO_AUTHENTICATION

/-- Modelled from the spec: the `none` authentication backend
(`xpra.server.auth.none_auth` is not under `src/`; only its test
`server_auth_test.py` lines 55-57 is).  Spec §4.3: "`none`: any response is
invalid input — if a response was supplied, result is
`NoAuthenticationConfigured`; if none was supplied, result is `Ok`." -/
def noneAuth : Option String → VerificationResult
  | none => VerificationResult.Ok
  | some _ => VerificationResult.NoAuthenticationConfigured

/-- TLS verify-mode values (spec §6). -/
inductive VerifyMode where
  | vnone
  | vpeer
  | vrequired
  deriving Repr, DecidableEq

/-- Modelled from the spec: the TLS client connection outcome
(`server_sockets_test.py` lines 153-174 exercises it; the TLS handshake code
is not under `src/`).  Spec §8: with verify-mode `required` an untrusted
(self-signed) certificate yields `SSL_CERTIFICATE_VERIFY_FAILURE`; with
verify-mode `none` verification is skipped and the outcome is the
result code of the authentication backend. -/
def tlsConnect (mode : VerifyMode) (certTrusted : Bool)
    (auth : VerificationResult) : ExitCode :=
  match mode with
  | VerifyMode.vnone => resultCode auth
  | VerifyMode.vpeer =>
      if certTrusted then resultCode auth else ExitCode.SSL_CERTIFICATE_VERIFY_FAILURE
  | VerifyMode.vrequired =>
      if certTrusted then resultCode auth else ExitCode.SSL_CERTIFICATE_VERIFY_FAILURE

/-- Iterated `ClientWebSocketConnection.write`: the caller issues a sequence
of writes (returns the list of reported byte counts, the final state and the
concatenated effect trace). -/
def ClientWebSocketConnection.writeAll (s : QState) :
    List Bytes → List Nat × QState × List Effect
  | [] => ([], s, [])
  | b :: rest =>
      let r1 := ClientWebSocketConnection.write s b
      let r2 := ClientWebSocketConnection.writeAll r1.2.1 rest
      (r1.1 :: r2.1, r2.2.1, r1.2.2 ++ r2.2.2)

/-- Helper: while the write buffer is live, a sequence of writes only grows
the buffer (FIFO), reports each length, and produces no wire traffic. -/
theorem writeAll_buffered (bufs : List Bytes) (s : QState) (wb : List Bytes)
    (h : s.write_buffer = some wb) :
    ClientWebSocketConnection.writeAll s bufs
      = (bufs.map List.length, { s with write_buffer := some (wb ++ bufs) }, []) := by
  induction bufs generalizing s wb with
  | nil =>
      cases s
      simp_all [ClientWebSocketConnection.writeAll]
  | cons b rest ih =>
      simp only [ClientWebSocketConnection.writeAll, ClientWebSocketConnection.write, h]
      rw [ih _ (wb ++ [b]) rfl]
      simp [List.append_assoc]

/-- Helper: with the buffer retired, a sequence of writes is sent directly,
each with `end_stream=self.closed` followed by a transmit, state unchanged. -/
theorem writeAll_direct (bufs : List Bytes) (s : QState)
    (h : s.write_buffer = none) :
    ClientWebSocketConnection.writeAll s bufs
      = (bufs.map List.length, s,
         (bufs.map (fun b => [Effect.sendData s.stream_id b s.closed, Effect.transmit])).flatten) := by
  induction bufs with
  | nil => simp [ClientWebSocketConnection.writeAll]
  | cons b rest ih =>
      simp only [ClientWebSocketConnection.writeAll, ClientWebSocketConnection.write, h,
        XpraQuicConnection.write]
      rw [ih]
      simp

/-- C1: writes issued while the stream has not been accepted are buffered in
FIFO order (each reported as its byte length, nothing sent on the wire); the
flush on acceptance sends exactly the buffered chunks, once each, in
submission order; the buffer is then retired (`none`) and every subsequent
write goes directly to the stream. -/
theorem c1_write_buffering (s : QState) (bufs more : List Bytes)
    (h : s.write_buffer = some []) :
    ClientWebSocketConnection.writeAll s bufs
      = (bufs.map List.length, { s with write_buffer := some bufs }, [])
    ∧ ClientWebSocketConnection.flush_writes { s with write_buffer := some bufs }
      = some ({ s with write_buffer := none },
              bufs.map (fun b => Effect.sendData s.stream_id b false) ++ [Effect.transmit])
    ∧ (∀ (s2 : QState) (b : Bytes), s2.write_buffer = none →
        ClientWebSocketConnection.write s2 b = XpraQuicConnection.write s2 b)
    ∧ ClientWebSocketConnection.writeAll { s with write_buffer := none } more
      = (more.map List.length, { s with write_buffer := none },
         (more.map (fun b => [Effect.sendData s.stream_id b s.closed, Effect.transmit])).flatten) := by
  refine ⟨?_, ?_, ?_, ?_⟩
  · have := writeAll_buffered bufs s [] h
    simpa using this
  · simp [ClientWebSocketConnection.flush_writes]
  · intro s2 b h2
    simp [ClientWebSocketConnection.write, h2]
  · exact writeAll_direct more _ rfl

/-- Witness for C1 at a concrete stream: two buffered writes `[1]` and
`[2, 3]`, then one post-flush write `[4]`. -/
theorem c1_write_buffering_witness :
    (QState.init 0).write_buffer = some []
    ∧ (ClientWebSocketConnection.writeAll (QState.init 0) [[1], [2, 3]]
        = ([[1], [2, 3]].map List.length,
           { QState.init 0 with write_buffer := some [[1], [2, 3]] }, [])
      ∧ ClientWebSocketConnection.flush_writes
          { QState.init 0 with write_buffer := some [[1], [2, 3]] }
        = some ({ QState.init 0 with write_buffer := none },
                [[1], [2, 3]].map (fun b => Effect.sendData (QState.init 0).stream_id b false)
                  ++ [Effect.transmit])
      ∧ (∀ (s2 : QState) (b : Bytes), s2.write_buffer = none →
          ClientWebSocketConnection.write s2 b = XpraQuicConnection.write s2 b)
      ∧ ClientWebSocketConnection.writeAll { QState.init 0 with write_buffer := none } [[4]]
        = ([[4]].map List.length, { QState.init 0 with write_buffer := none },
           ([[4]].map (fun b =>
              [Effect.sendData (QState.init 0).stream_id b (QState.init 0).closed,
               Effect.transmit])).flatten)) :=
  ⟨rfl, c1_write_buffering (QState.init 0) [[1], [2, 3]] [[4]] rfl⟩

/-- C3: the `none` authentication backend yields `OK` when no credential is
supplied and `NO_AUTHENTICATION` (`NoAuthenticationConfigured`, never `Ok`)
when any credential is supplied. -/
theorem c3_none_backend :
    resultCode (noneAuth none) = ExitCode.OK
    ∧ (∀ cred : String,
        resultCode (noneAuth (some cred)) = ExitCode.NO_AUTHENTICATION
        ∧ noneAuth (some cred) ≠ VerificationResult.Ok) :=
  ⟨rfl, fun _ => ⟨rfl, by simp [noneAuth]⟩⟩

/-- C8: the upgrade request sent by `WebSocketClient.open` carries exactly
`:authority`, `:path`, `:method=CONNECT`, `:scheme=https`,
`:protocol=websocket`, `sec-websocket-version=13`,
`sec-websocket-protocol=xpra` and a user-agent identifier. -/
theorem c8_upgrade_headers (c : WebSocketClient) (sid : Nat) (host path : String) :
    (WebSocketClient.wsOpen c sid host path).2
      = [Effect.sendHeaders sid
          [(":authority", host), (":path", path),
           (":method", "CONNECT"), (":scheme", "https"), (":protocol", "websocket"),
           ("sec-websocket-version", "13"), ("sec-websocket-protocol", "xpra"),
           ("user-agent", USER_AGENT)] false,
         Effect.transmit]
    ∧ (WebSocketClient.wsOpen c sid host path).1.websockets
      = c.websockets ++ [(sid, QState.init sid)] :=
  ⟨rfl, rfl⟩

/-- C9: with verify-mode `required` an untrusted (self-signed) certificate
yields `SSL_CERTIFICATE_VERIFY_FAILURE` whatever the auth backend would say;
with verify-mode `none` the outcome is the result code of the auth backend,
in particular `OK` for the accepting `none` backend. -/
theorem c9_tls_verify (auth : VerificationResult) :
    tlsConnect VerifyMode.vrequired false auth = ExitCode.SSL_CERTIFICATE_VERIFY_FAILURE
    ∧ tlsConnect VerifyMode.vnone false auth = resultCode auth
    ∧ tlsConnect VerifyMode.vnone false (noneAuth none) = ExitCode.OK :=
  ⟨rfl, rfl, rfl⟩

/-- C10: `XpraQuicConnection.read` ignores its max-bytes argument: for every
`n` (zero and negative included) the result is the same, and on a non-empty
queue it dequeues and returns the entire next chunk, whatever its length. -/
theorem c10_read_ignores_n (s : QState) (n m : Int) (sid : Nat)
    (chunk : Bytes) (rest : List Bytes) (acc cl rel : Bool)
    (wb : Option (List Bytes)) :
    XpraQuicConnection.read s n = XpraQuicConnection.read s m
    ∧ XpraQuicConnection.read ⟨sid, chunk :: rest, acc, cl, rel, wb⟩ n
        = some (chunk, ⟨sid, rest, acc, cl, rel, wb⟩) :=
  ⟨rfl, rfl⟩

/-- Helper: headers whose name is not `sec-websocket-protocol` are skipped
by the `http_event_received` loop. -/
theorem processHeaders_skip (s : QState) (pre rest : List (String × String))
    (h : ∀ p ∈ pre, p.1 ≠ "sec-websocket-protocol") :
    ClientWebSocketConnection.processHeaders s (pre ++ rest)
      = ClientWebSocketConnection.processHeaders s rest := by
  induction pre with
  | nil => rfl
  | cons p pre ih =>
      obtain ⟨hn, hv⟩ := p
      have hp : hn ≠ "sec-websocket-protocol" := h (hn, hv) (by simp)
      simp only [List.cons_append, ClientWebSocketConnection.processHeaders, if_neg hp]
      exact ih (fun q hq => h q (by simp [hq]))

/-- Helper: a header list with no `sec-websocket-protocol` entry leaves the
stream state untouched. -/
theorem processHeaders_no_subprotocol (s : QState) (hs : List (String × String))
    (h : ∀ p ∈ hs, p.1 ≠ "sec-websocket-protocol") :
    ClientWebSocketConnection.processHeaders s hs = some (s, []) := by
  have := processHeaders_skip s hs [] h
  simpa using this

/-- C2: on a response `HeadersReceived` event whose single
`sec-websocket-protocol` header does not list `xpra`, the stream goes
directly to closed (never accepted), a warning surfaces the unsupported
subprotocols, and a terminal `:status` response is sent; when `xpra` is
listed the stream becomes accepted (still open) and the buffered writes are
flushed. -/
theorem c2_subprotocol_check (s : QState) (sid : Nat) (v : String)
    (pre post : List (String × String)) (wb : List Bytes)
    (hpre : ∀ p ∈ pre, p.1 ≠ "sec-websocket-protocol")
    (hpost : ∀ p ∈ post, p.1 ≠ "sec-websocket-protocol")
    (hacc : s.accepted = false) (hcl : s.closed = false)
    (hrel : s.released = false) (hwb : s.write_buffer = some wb) :
    ("xpra" ∉ v.splitOn "," →
      ClientWebSocketConnection.http_event_received s
          (H3Event.headersReceived sid (pre ++ ("sec-websocket-protocol", v) :: post))
        = some ({ s with closed := true, released := true },
            [Effect.logWarn ("Warning: unsupported websocket subprotocols "
               ++ String.intercalate "," (v.splitOn ",")),
             Effect.sendHeaders s.stream_id [(":status", "1000")] true,
             Effect.transmit, Effect.release]))
    ∧ ("xpra" ∈ v.splitOn "," →
      ClientWebSocketConnection.http_event_received s
          (H3Event.headersReceived sid (pre ++ ("sec-websocket-protocol", v) :: post))
        = some ({ s with accepted := true, write_buffer := none },
            wb.map (fun b => Effect.sendData s.stream_id b false) ++ [Effect.transmit])) := by
  constructor
  · intro hnx
    simp only [ClientWebSocketConnection.http_event_received]
    rw [processHeaders_skip s pre _ hpre]
    simp only [ClientWebSocketConnection.processHeaders, if_pos rfl, if_neg hnx]
    simp only [ClientWebSocketConnection.close, close_with, hcl, Bool.false_eq_true,
      if_false, send_close_with, hacc, Connection.close, hrel]
    simp [XpraQuicConnection.send_headers]
    rfl
  · intro hx
    simp only [ClientWebSocketConnection.http_event_received]
    rw [processHeaders_skip s pre _ hpre]
    simp only [ClientWebSocketConnection.processHeaders, if_pos rfl, if_pos hx]
    simp only [ClientWebSocketConnection.flush_writes, hwb]
    rw [processHeaders_no_subprotocol _ post hpost]
    simp

/-- Witness for C2: a fresh stream receiving the two concrete responses
`sec-websocket-protocol: chat` (closed, warned) and
`sec-websocket-protocol: xpra` (accepted). -/
theorem c2_subprotocol_check_witness :
    (("xpra" ∉ ("chat".splitOn ",") →
      ClientWebSocketConnection.http_event_received (QState.init 0)
          (H3Event.headersReceived 0 [("sec-websocket-protocol", "chat")])
        = some ({ QState.init 0 with closed := true, released := true },
            [Effect.logWarn ("Warning: unsupported websocket subprotocols "
               ++ String.intercalate "," ("chat".splitOn ",")),
             Effect.sendHeaders (QState.init 0).stream_id [(":status", "1000")] true,
             Effect.transmit, Effect.release]))
    ∧ ("xpra" ∈ ("chat".splitOn ",") →
      ClientWebSocketConnection.http_event_received (QState.init 0)
          (H3Event.headersReceived 0 [("sec-websocket-protocol", "chat")])
        = some ({ QState.init 0 with accepted := true, write_buffer := none },
            List.map (fun b => Effect.sendData (QState.init 0).stream_id b false) []
              ++ [Effect.transmit])))
    ∧ (("xpra" ∉ ("xpra".splitOn ",") →
      ClientWebSocketConnection.http_event_received (QState.init 0)
          (H3Event.headersReceived 0 [("sec-websocket-protocol", "xpra")])
        = some ({ QState.init 0 with closed := true, released := true },
            [Effect.logWarn ("Warning: unsupported websocket subprotocols "
               ++ String.intercalate "," ("xpra".splitOn ",")),
             Effect.sendHeaders (QState.init 0).stream_id [(":status", "1000")] true,
             Effect.transmit, Effect.release]))
    ∧ ("xpra" ∈ ("xpra".splitOn ",") →
      ClientWebSocketConnection.http_event_received (QState.init 0)
          (H3Event.headersReceived 0 [("sec-websocket-protocol", "xpra")])
        = some ({ QState.init 0 with accepted := true, write_buffer := none },
            List.map (fun b => Effect.sendData (QState.init 0).stream_id b false) []
              ++ [Effect.transmit]))) :=
  ⟨c2_subprotocol_check (QState.init 0) 0 "chat" [] [] []
      (by simp) (by simp) rfl rfl rfl rfl,
   c2_subprotocol_check (QState.init 0) 0 "xpra" [] [] []
      (by simp) (by simp) rfl rfl rfl rfl⟩

/-- C4 counterexample: on a connection whose `closed` flag is true,
`XpraQuicConnection.write` still transmits the bytes (with `end_stream`
set) and returns the byte count, and `XpraQuicConnection.read` still
returns queued data as if the stream were open — no `ConnectionClosed`
condition exists in the code. -/
theorem c4_counterexample :
    (XpraQuicConnection.write
        { stream_id := 0, read_queue := [[1, 2, 3]], accepted := true,
          closed := true, released := false, write_buffer := none } [5, 6]).1 = 2
    ∧ (XpraQuicConnection.write
        { stream_id := 0, read_queue := [[1, 2, 3]], accepted := true,
          closed := true, released := false, write_buffer := none } [5, 6]).2.2
      = [Effect.sendData 0 [5, 6] true, Effect.transmit]
    ∧ XpraQuicConnection.read
        { stream_id := 0, read_queue := [[1, 2, 3]], accepted := true,
          closed := true, released := false, write_buffer := none } (-1)
      = some ([1, 2, 3],
          { stream_id := 0, read_queue := [], accepted := true,
            closed := true, released := false, write_buffer := none }) :=
  ⟨rfl, rfl, rfl⟩

/-- C4 (amended): after `closed` becomes true, `write` does not fail — it
sends the data with `end_stream=True` and returns the byte count; `read`
does not fail — it dequeues queued data, and blocks when the queue is
empty; only incoming events are dropped (`http_event_received` ignores
them once closed). -/
theorem c4_closed_behaviour (s : QState) (buf : Bytes) (e : H3Event) (n : Int)
    (h : s.closed = true) :
    XpraQuicConnection.write s buf
      = (buf.length, s, [Effect.sendData s.stream_id buf true, Effect.transmit])
    ∧ (s.read_queue = [] → XpraQuicConnection.read s n = none)
    ∧ (∀ (c : Bytes) (rest : List Bytes), s.read_queue = c :: rest →
        XpraQuicConnection.read s n = some (c, { s with read_queue := rest }))
    ∧ XpraQuicConnection.http_event_received s e = (s, []) := by
  refine ⟨?_, ?_, ?_, ?_⟩
  · simp [XpraQuicConnection.write, h]
  · intro hq
    simp [XpraQuicConnection.read, hq]
  · intro c rest hq
    simp [XpraQuicConnection.read, hq]
  · simp [XpraQuicConnection.http_event_received, h]

/-- Witness for C4 (amended) on a concrete closed connection holding one
queued chunk. -/
theorem c4_closed_behaviour_witness :
    ({ QState.init 0 with closed := true, read_queue := [[7]] } : QState).closed = true
    ∧ (XpraQuicConnection.write { QState.init 0 with closed := true, read_queue := [[7]] } [5, 6]
        = (([5, 6] : Bytes).length, { QState.init 0 with closed := true, read_queue := [[7]] },
           [Effect.sendData ({ QState.init 0 with closed := true, read_queue := [[7]] } : QState).stream_id
              [5, 6] true, Effect.transmit])
      ∧ (({ QState.init 0 with closed := true, read_queue := [[7]] } : QState).read_queue = [] →
          XpraQuicConnection.read { QState.init 0 with closed := true, read_queue := [[7]] } 0 = none)
      ∧ (∀ (c : Bytes) (rest : List Bytes),
          ({ QState.init 0 with closed := true, read_queue := [[7]] } : QState).read_queue = c :: rest →
          XpraQuicConnection.read { QState.init 0 with closed := true, read_queue := [[7]] } 0
            = some (c, { { QState.init 0 with closed := true, read_queue := [[7]] } with read_queue := rest }))
      ∧ XpraQuicConnection.http_event_received
          { QState.init 0 with closed := true, read_queue := [[7]] } H3Event.other
        = ({ QState.init 0 with closed := true, read_queue := [[7]] }, [])) :=
  ⟨rfl, c4_closed_behaviour { QState.init 0 with closed := true, read_queue := [[7]] }
          [5, 6] H3Event.other 0 rfl⟩

/-- C6: an HTTP/3 headers or data event whose stream id is not a key of the
`_websockets` map is answered with a warning only: the handler returns
normally (`some`) and the multiplexer state — hence every known stream —
is unchanged. -/
theorem c6_unknown_stream_id (c : WebSocketClient) (sid : Nat)
    (headers : List (String × String)) (data : Bytes)
    (h : c.lookup sid = none) :
    WebSocketClient.http_event_received c (H3Event.headersReceived sid headers)
      = some (c, [Effect.logWarn ("Warning: unexpected websocket stream id: "
                    ++ toString sid)])
    ∧ WebSocketClient.http_event_received c (H3Event.dataReceived sid data)
      = some (c, [Effect.logWarn ("Warning: unexpected websocket stream id: "
                    ++ toString sid)]) := by
  constructor <;> simp [WebSocketClient.http_event_received, h]

/-- Witness for C6: a multiplexer owning stream 0 receives events for the
unknown stream 4. -/
theorem c6_unknown_stream_id_witness :
    WebSocketClient.lookup ⟨[(0, QState.init 0)]⟩ 4 = none
    ∧ (WebSocketClient.http_event_received ⟨[(0, QState.init 0)]⟩
          (H3Event.headersReceived 4 [("x", "y")])
        = some (⟨[(0, QState.init 0)]⟩,
            [Effect.logWarn ("Warning: unexpected websocket stream id: " ++ toString 4)])
      ∧ WebSocketClient.http_event_received ⟨[(0, QState.init 0)]⟩
          (H3Event.dataReceived 4 [1])
        = some (⟨[(0, QState.init 0)]⟩,
            [Effect.logWarn ("Warning: unexpected websocket stream id: " ++ toString 4)])) :=
  ⟨rfl, c6_unknown_stream_id ⟨[(0, QState.init 0)]⟩ 4 [("x", "y")] [1] rfl⟩

/-- C7: `close()` is idempotent, for the base-class and for the client
subclass dispatch alike: a second close leaves the state exactly as after
the first and performs no effect at all (no second close frame or status
response, no second release). -/
theorem c7_close_idempotent (s : QState) :
    XpraQuicConnection.close (XpraQuicConnection.close s).1
      = ((XpraQuicConnection.close s).1, [])
    ∧ ClientWebSocketConnection.close (ClientWebSocketConnection.close s).1
      = ((ClientWebSocketConnection.close s).1, []) := by
  obtain ⟨sid, rq, acc, cl, rel, wb⟩ := s
  cases acc <;> cases cl <;> cases rel <;> cases wb <;>
    simp [XpraQuicConnection.close, ClientWebSocketConnection.close, close_with,
      send_close_with, Connection.close, XpraQuicConnection.write,
      ClientWebSocketConnection.write, XpraQuicConnection.send_headers]

/-- Helper: updating an existing key of the `_websockets` map makes lookup
return the new entry. -/
theorem lookupSid_updateEntry (sid : Nat) (ws : QState) (l : List (Nat × QState))
    (s : QState) (h : lookupSid sid l = some s) :
    lookupSid sid (updateEntry sid ws l) = some ws := by
  induction l with
  | nil => simp [lookupSid] at h
  | cons p rest ih =>
      by_cases hp : p.1 = sid
      · simp [updateEntry, lookupSid, hp]
      · simp only [updateEntry, lookupSid, if_neg hp] at h ⊢
        exact ih h

/-- C5 (amended): closing a registered stream session that reached accepted
sends a websocket close frame; closing one never accepted sends a terminal
`:status` response; in both cases the session transitions to closed — but
its entry is NOT removed from the `_websockets` map of the multiplexer
(no removal code exists in `client.py`): the closed entry remains. -/
theorem c5_close_stream (c : WebSocketClient) (sid : Nat) (s : QState)
    (hl : c.lookup sid = some s) (hcl : s.closed = false)
    (hrel : s.released = false) :
    (s.accepted = true → s.write_buffer = none →
      WebSocketClient.closeStream c sid
        = ({ websockets := updateEntry sid { s with closed := true, released := true }
               c.websockets },
           [Effect.sendData s.stream_id (close_packet 1000 "") true,
            Effect.transmit, Effect.release]))
    ∧ (s.accepted = false →
      WebSocketClient.closeStream c sid
        = ({ websockets := updateEntry sid { s with closed := true, released := true }
               c.websockets },
           [Effect.sendHeaders s.stream_id [(":status", "1000")] true,
            Effect.transmit, Effect.release]))
    ∧ WebSocketClient.lookup (WebSocketClient.closeStream c sid).1 sid
        = some (ClientWebSocketConnection.close s).1
    ∧ ((ClientWebSocketConnection.close s).1).closed = true := by
  refine ⟨?_, ?_, ?_, ?_⟩
  · intro ha hw
    simp only [WebSocketClient.closeStream, hl]
    simp [ClientWebSocketConnection.close, close_with, send_close_with,
      Connection.close, ClientWebSocketConnection.write, XpraQuicConnection.write,
      hcl, hrel, ha, hw]
  · intro ha
    simp only [WebSocketClient.closeStream, hl]
    simp [ClientWebSocketConnection.close, close_with, send_close_with,
      Connection.close, XpraQuicConnection.send_headers, hcl, hrel, ha]
    rfl
  · simp only [WebSocketClient.closeStream, hl]
    exact lookupSid_updateEntry sid _ c.websockets s hl
  · obtain ⟨sid2, rq, acc, cl, rel, wb⟩ := s
    cases acc <;> cases cl <;> cases rel <;> cases wb <;>
      simp [ClientWebSocketConnection.close, close_with, send_close_with,
        Connection.close, ClientWebSocketConnection.write, XpraQuicConnection.write,
        XpraQuicConnection.send_headers]

/-- C5 counterexample: after closing registered stream 7 (which had reached
accepted), its entry is still present in the `_websockets` map — the claim
that the entry is removed is false on this code. -/
theorem c5_counterexample :
    WebSocketClient.lookup
        (WebSocketClient.closeStream
          ⟨[(7, { stream_id := 7, read_queue := [], accepted := true,
                  closed := false, released := false, write_buffer := none })]⟩ 7).1 7
      = some { stream_id := 7, read_queue := [], accepted := true,
               closed := true, released := true, write_buffer := none }
    ∧ WebSocketClient.lookup
        (WebSocketClient.closeStream
          ⟨[(7, { stream_id := 7, read_queue := [], accepted := true,
                  closed := false, released := false, write_buffer := none })]⟩ 7).1 7
      ≠ none :=
  ⟨rfl, by decide⟩

/-- Witness for C5 (amended) on a concrete multiplexer owning the single
accepted stream 7. -/
theorem c5_close_stream_witness :
    WebSocketClient.lookup
        ⟨[(7, { stream_id := 7, read_queue := [], accepted := true,
                closed := false, released := false, write_buffer := none })]⟩ 7
      = some { stream_id := 7, read_queue := [], accepted := true,
               closed := false, released := false, write_buffer := none }
    ∧ (({ stream_id := 7, read_queue := [], accepted := true,
          closed := false, released := false, write_buffer := none } : QState).accepted = true →
       ({ stream_id := 7, read_queue := [], accepted := true,
          closed := false, released := false, write_buffer := none } : QState).write_buffer = none →
      WebSocketClient.closeStream
          ⟨[(7, { stream_id := 7, read_queue := [], accepted := true,
                  closed := false, released := false, write_buffer := none })]⟩ 7
        = ({ websockets := updateEntry 7
               { ({ stream_id := 7, read_queue := [], accepted := true,
                    closed := false, released := false, write_buffer := none } : QState) with
                 closed := true, released := true }
               [(7, { stream_id := 7, read_queue := [], accepted := true,
                      closed := false, released := false, write_buffer := none })] },
           [Effect.sendData 7 (close_packet 1000 "") true,
            Effect.transmit, Effect.release]))
    ∧ (({ stream_id := 7, read_queue := [], accepted := true,
          closed := false, released := false, write_buffer := none } : QState).accepted = false →
      WebSocketClient.closeStream
          ⟨[(7, { stream_id := 7, read_queue := [], accepted := true,
                  closed := false, released := false, write_buffer := none })]⟩ 7
        = ({ websockets := updateEntry 7
               { ({ stream_id := 7, read_queue := [], accepted := true,
                    closed := false, released := false, write_buffer := none } : QState) with
                 closed := true, released := true }
               [(7, { stream_id := 7, read_queue := [], accepted := true,
                      closed := false, released := false, write_buffer := none })] },
           [Effect.sendHeaders 7 [(":status", "1000")] true,
            Effect.transmit, Effect.release]))
    ∧ WebSocketClient.lookup
        (WebSocketClient.closeStream
          ⟨[(7, { stream_id := 7, read_queue := [], accepted := true,
                  closed := false, released := false, write_buffer := none })]⟩ 7).1 7
        = some (ClientWebSocketConnection.close
            { stream_id := 7, read_queue := [], accepted := true,
              closed := false, released := false, write_buffer := none }).1
    ∧ ((ClientWebSocketConnection.close
          { stream_id := 7, read_queue := [], accepted := true,
            closed := false, released := false, write_buffer := none }).1).closed = true :=
  ⟨rfl, c5_close_stream
      ⟨[(7, { stream_id := 7, read_queue := [], accepted := true,
              closed := false, released := false, write_buffer := none })]⟩ 7
      { stream_id := 7, read_queue := [], accepted := true,
        closed := false, released := false, write_buffer := none }
      rfl rfl rfl⟩
